import Mathlib

/-!
Verification of the ShagMe dating-app matching engine.

This file gives a shallow embedding, in Lean 4, of the preference-based
filtering and matching services of the repository:

* `PreferenceFiltering` embeds `preferenceFilteringService` (the
  `PreferenceFilteringService` class): deal-breaker predicates, the four
  category scorers with their sub-factor breakdowns, the weighted
  compatibility aggregation (`weighted_average` / `multiplicative` /
  `hybrid`), and the preference-alignment analysis.
* `MatchingService` embeds the corresponding parts of
  `src/services/matching/matchingService.ts`: minimum-threshold
  filtering, criteria validation, and the final ranking sort of
  `findAdvancedMatches`.

Numbers are embedded as exact rationals.  Where JavaScript number
semantics matter (division by zero producing NaN or infinities), the
type `JsNum` models IEEE special values explicitly.  `Math.random()` is
modelled by an explicit stream of rationals threaded through the
functions that call it, so that (in)dependence of results on randomness
can be stated.  `Math.pow(x, 1/4)` is modelled by an explicit function
parameter `pow4`.
-/

/-- A JavaScript number restricted to the values reachable in the code
under study: NaN, signed infinity (`inf true` is `+∞`), or a finite
value (an exact rational; floating-point rounding is not modelled). -/
inductive JsNum where
  | nan : JsNum
  | inf : Bool → JsNum
  | num : ℚ → JsNum
deriving DecidableEq, Repr

namespace JsNum

/-- JavaScript addition on `JsNum` (IEEE-754 semantics). -/
def add : JsNum → JsNum → JsNum
  | nan, _ => nan
  | _, nan => nan
  | inf s, inf t => if s = t then inf s else nan
  | inf s, num _ => inf s
  | num _, inf t => inf t
  | num a, num b => num (a + b)

/-- JavaScript multiplication on `JsNum` (IEEE-754 semantics). -/
def mul : JsNum → JsNum → JsNum
  | nan, _ => nan
  | _, nan => nan
  | inf s, inf t => inf (s == t)
  | inf s, num q => if q = 0 then nan else inf (s == decide (0 < q))
  | num q, inf t => if q = 0 then nan else inf (t == decide (0 < q))
  | num a, num b => num (a * b)

/-- JavaScript division on `JsNum` (IEEE-754 semantics); in particular
`0 / 0 = NaN` and `a / 0 = ±∞` for finite nonzero `a`. -/
def div : JsNum → JsNum → JsNum
  | nan, _ => nan
  | _, nan => nan
  | inf _, inf _ => nan
  | inf s, num q => inf (s == decide (0 ≤ q))
  | num _, inf _ => num 0
  | num a, num b =>
    if b = 0 then
      if a = 0 then nan else inf (decide (0 < a))
    else num (a / b)

/-- JavaScript `<` comparison on `JsNum`: any comparison with NaN is
false. -/
def jlt : JsNum → JsNum → Bool
  | nan, _ => false
  | _, nan => false
  | inf s, inf t => !s && t
  | inf s, num _ => !s
  | num _, inf t => t
  | num a, num b => decide (a < b)

end JsNum

/-! ## The profile data model

The fields of `UserProfile` (from `types/profile`) that the matching
code reads.  Optional TypeScript fields become `Option`; JavaScript
falsiness of `0`, `""`, `undefined` is handled at each use site exactly
as the source does. -/

/-- `personalInfo.lifestyle`: each habit is an optional string level. -/
structure Lifestyle where
  smoking : Option String
  drinking : Option String
  drugs : Option String
  exercise : Option String
  diet : Option String
deriving DecidableEq, Repr

/-- An age range preference with `min`/`max` bounds. -/
structure AgeRange where
  lo : ℚ
  hi : ℚ
deriving DecidableEq, Repr

/-- `profile.preferences`: the fields read by the filtering code. -/
structure MatchingPreferences where
  bodyTypes : Option (List String)
  ageRange : Option AgeRange
deriving DecidableEq, Repr

/-- `profile.verification`. -/
structure Verification where
  isVerified : Bool
deriving DecidableEq, Repr

/-- `profile.personalInfo`: the fields read by the filtering code. -/
structure PersonalInfo where
  age : ℚ
  height : Option ℚ
  bodyType : Option String
  education : Option String
  languages : Option (List String)
  interests : Option (List String)
  lookingFor : Option (List String)
  sexualOrientation : String
  lifestyle : Option Lifestyle
deriving DecidableEq, Repr

/-- A user profile, restricted to the fields the matching engine reads.
Timestamps are epoch milliseconds. -/
structure UserProfile where
  userId : String
  personalInfo : PersonalInfo
  photos : Option (List String)
  preferences : Option MatchingPreferences
  verification : Option Verification
  lastActiveAt : Option ℚ
  createdAt : Option ℚ
deriving DecidableEq, Repr

/-- JavaScript `s || d` for an optional string `s`: `undefined` and the
empty string are falsy and fall back to the default. -/
def jsOrStr (o : Option String) (d : String) : String :=
  match o with
  | none => d
  | some s => if s = "" then d else s

/-- JavaScript truthiness of an optional string (`undefined` and `""`
are falsy). -/
def jsStrTruthy (o : Option String) : Bool :=
  match o with
  | none => false
  | some s => !(s == "")

/-- JavaScript truthiness of an optional number (`undefined` and `0`
are falsy). -/
def jsNumTruthy (o : Option ℚ) : Bool :=
  match o with
  | none => false
  | some q => !(q == 0)

/-- JavaScript `Array.prototype.indexOf`: first index of `s`, `-1` if
absent. -/
def jsIndexOf (l : List String) (s : String) : Int :=
  match l with
  | [] => -1
  | a :: rest =>
    if a = s then 0
    else
      let r := jsIndexOf rest s
      if r = -1 then -1 else r + 1

namespace PreferenceFiltering

/-- `getEducationLevel`: the education-level lookup table with default
level 2 (`levels[education] || 2`; every table value is nonzero so the
fallback fires exactly for unknown keys). -/
def getEducationLevel (education : String) : ℚ :=
  if education = "high_school" then 1
  else if education = "some_college" then 2
  else if education = "bachelors" then 3
  else if education = "masters" then 4
  else if education = "phd" then 5
  else if education = "trade_school" then 2
  else if education = "associate" then 2
  else 2

/-- `isDealBreakerTriggered`: the deal-breaker switch.  `now` embeds
`Date.now()` (epoch milliseconds). -/
def isDealBreakerTriggered (now : ℚ) (userProfile candidate : UserProfile)
    (dealBreaker : String) : Bool :=
  if dealBreaker = "smoking" then
    (candidate.personalInfo.lifestyle.bind Lifestyle.smoking) == some "regularly" ||
    (candidate.personalInfo.lifestyle.bind Lifestyle.smoking) == some "socially"
  else if dealBreaker = "no_photos" then
    match candidate.photos with
    | none => true
    | some ps => ps.length == 0
  else if dealBreaker = "height_mismatch" then
    let userHeight := (userProfile.personalInfo.height).getD 0
    let candidateHeight := (candidate.personalInfo.height).getD 0
    decide (20 < |userHeight - candidateHeight|)
  else if dealBreaker = "body_type_mismatch" then
    let preferredBodyTypes := ((userProfile.preferences).bind MatchingPreferences.bodyTypes).getD []
    match candidate.personalInfo.bodyType with
    | none => false
    | some bt => decide (0 < preferredBodyTypes.length) && !(preferredBodyTypes.contains bt)
  else if dealBreaker = "drinking_heavily" then
    (candidate.personalInfo.lifestyle.bind Lifestyle.drinking) == some "frequently"
  else if dealBreaker = "drug_use" then
    (candidate.personalInfo.lifestyle.bind Lifestyle.drugs) == some "regularly" ||
    (candidate.personalInfo.lifestyle.bind Lifestyle.drugs) == some "occasionally"
  else if dealBreaker = "no_exercise" then
    (candidate.personalInfo.lifestyle.bind Lifestyle.exercise) == some "never"
  else if dealBreaker = "no_verification" then
    !(match candidate.verification with
      | none => false
      | some v => v.isVerified)
  else if dealBreaker = "education_mismatch" then
    if jsStrTruthy userProfile.personalInfo.education &&
       jsStrTruthy candidate.personalInfo.education then
      decide (2 < getEducationLevel ((userProfile.personalInfo.education).getD "") -
                  getEducationLevel ((candidate.personalInfo.education).getD ""))
    else false
  else if dealBreaker = "language_barrier" then
    let userLanguages := (userProfile.personalInfo.languages).getD []
    let candidateLanguages := (candidate.personalInfo.languages).getD []
    !(userLanguages.any (fun lang => candidateLanguages.contains lang))
  else if dealBreaker = "inactive_users" then
    let daysSinceActive :=
      match candidate.lastActiveAt with
      | some t => (now - t) / (1000 * 60 * 60 * 24)
      | none => 999
    decide (14 < daysSinceActive)
  else if dealBreaker = "new_profiles" then
    let daysSinceCreated :=
      match candidate.createdAt with
      | some t => (now - t) / (1000 * 60 * 60 * 24)
      | none => 999
    decide (daysSinceCreated < 1)
  else if dealBreaker = "age_gaps" then
    decide (15 < |userProfile.personalInfo.age - candidate.personalInfo.age|)
  else if dealBreaker = "relationship_mismatch" then
    let userLookingFor := (userProfile.personalInfo.lookingFor).getD []
    let candidateLookingFor := (candidate.personalInfo.lookingFor).getD []
    !(userLookingFor.any (fun t => candidateLookingFor.contains t))
  else false

/-! ## Category sub-factor scorers

Each helper is a pure function of (user, candidate) returning a score;
translated clause by clause from `preferenceFilteringService`. -/

/-- `calculateBodyTypeCompatibility`. -/
def calculateBodyTypeCompatibility (userProfile candidate : UserProfile) : ℚ :=
  let preferredBodyTypes := ((userProfile.preferences).bind MatchingPreferences.bodyTypes).getD []
  if preferredBodyTypes.length = 0 || !(jsStrTruthy candidate.personalInfo.bodyType) then 0.7
  else if preferredBodyTypes.contains ((candidate.personalInfo.bodyType).getD "") then 1.0
  else 0.3

/-- `calculateHeightCompatibility`. -/
def calculateHeightCompatibility (userProfile candidate : UserProfile) : ℚ :=
  if !(jsNumTruthy userProfile.personalInfo.height) ||
     !(jsNumTruthy candidate.personalInfo.height) then 0.7
  else
    let heightDifference :=
      |(userProfile.personalInfo.height).getD 0 - (candidate.personalInfo.height).getD 0|
    if heightDifference ≤ 5 then 1.0
    else if heightDifference ≤ 15 then 0.8
    else if heightDifference ≤ 25 then 0.6
    else 0.3

/-- `calculateAgeCompatibility` (the `PreferenceFilteringService` one). -/
def calculateAgeCompatibility (userProfile candidate : UserProfile) : ℚ :=
  let userAge := userProfile.personalInfo.age
  let candidateAge := candidate.personalInfo.age
  match (userProfile.preferences).bind MatchingPreferences.ageRange with
  | none =>
    let ageDifference := |userAge - candidateAge|
    if ageDifference ≤ 3 then 1.0
    else if ageDifference ≤ 7 then 0.8
    else if ageDifference ≤ 12 then 0.6
    else 0.3
  | some preferredAgeRange =>
    if preferredAgeRange.lo ≤ candidateAge ∧ candidateAge ≤ preferredAgeRange.hi then 1.0
    else
      let outsideBy := min |candidateAge - preferredAgeRange.lo| |candidateAge - preferredAgeRange.hi|
      if outsideBy ≤ 2 then 0.7
      else if outsideBy ≤ 5 then 0.4
      else 0.1

/-- `calculateAppearanceScore` (photo-count proxy). -/
def calculateAppearanceScore (candidate : UserProfile) : ℚ :=
  let photoCount : ℕ := ((candidate.photos).map List.length).getD 0
  if photoCount = 0 then 0.2
  else if 5 ≤ photoCount then 1.0
  else if 3 ≤ photoCount then 0.8
  else if 2 ≤ photoCount then 0.6
  else 0.4

/-- `calculateSmokingCompatibility`. -/
def calculateSmokingCompatibility (userProfile candidate : UserProfile) : ℚ :=
  let userSmoking := jsOrStr (userProfile.personalInfo.lifestyle.bind Lifestyle.smoking) "unknown"
  let candidateSmoking := jsOrStr (candidate.personalInfo.lifestyle.bind Lifestyle.smoking) "unknown"
  if userSmoking = candidateSmoking then 1.0
  else if (userSmoking = "never" ∧ candidateSmoking = "socially") ∨
          (userSmoking = "socially" ∧ candidateSmoking = "never") then 0.6
  else if (userSmoking = "never" ∧ candidateSmoking = "regularly") ∨
          (userSmoking = "regularly" ∧ candidateSmoking = "never") then 0.2
  else 0.5

/-- `calculateDrinkingCompatibility`. -/
def calculateDrinkingCompatibility (userProfile candidate : UserProfile) : ℚ :=
  let userDrinking := jsOrStr (userProfile.personalInfo.lifestyle.bind Lifestyle.drinking) "unknown"
  let candidateDrinking := jsOrStr (candidate.personalInfo.lifestyle.bind Lifestyle.drinking) "unknown"
  if userDrinking = candidateDrinking then 1.0
  else
    let drinkingLevels := ["never", "rarely", "socially", "regularly", "frequently"]
    let userLevel := jsIndexOf drinkingLevels userDrinking
    let candidateLevel := jsIndexOf drinkingLevels candidateDrinking
    if 0 ≤ userLevel ∧ 0 ≤ candidateLevel then
      let difference := |userLevel - candidateLevel|
      if difference ≤ 1 then 0.8
      else if difference ≤ 2 then 0.6
      else 0.3
    else 0.5

/-- `calculateExerciseCompatibility`. -/
def calculateExerciseCompatibility (userProfile candidate : UserProfile) : ℚ :=
  let userExercise := jsOrStr (userProfile.personalInfo.lifestyle.bind Lifestyle.exercise) "unknown"
  let candidateExercise := jsOrStr (candidate.personalInfo.lifestyle.bind Lifestyle.exercise) "unknown"
  if userExercise = candidateExercise then 1.0
  else
    let exerciseLevels := ["never", "rarely", "sometimes", "regularly", "daily"]
    let userLevel := jsIndexOf exerciseLevels userExercise
    let candidateLevel := jsIndexOf exerciseLevels candidateExercise
    if 0 ≤ userLevel ∧ 0 ≤ candidateLevel then
      let difference := |userLevel - candidateLevel|
      if difference ≤ 1 then 0.8
      else if difference ≤ 2 then 0.6
      else 0.4
    else 0.5

/-- `calculateDietCompatibility`. -/
def calculateDietCompatibility (userProfile candidate : UserProfile) : ℚ :=
  let userDiet := jsOrStr (userProfile.personalInfo.lifestyle.bind Lifestyle.diet) "unknown"
  let candidateDiet := jsOrStr (candidate.personalInfo.lifestyle.bind Lifestyle.diet) "unknown"
  if userDiet = candidateDiet then 1.0
  else if userDiet = "vegetarian" ∧ candidateDiet = "vegan" then 0.7
  else if userDiet = "vegan" ∧ candidateDiet = "vegetarian" then 0.7
  else if (userDiet = "omnivore" ∧ candidateDiet = "vegetarian") ∨
          (userDiet = "vegetarian" ∧ candidateDiet = "omnivore") then 0.6
  else 0.5

/-- `calculateSocialHabitsCompatibility` (placeholder neutral score). -/
def calculateSocialHabitsCompatibility (userProfile candidate : UserProfile) : ℚ := 0.5

/-- `calculateEducationCompatibility`. -/
def calculateEducationCompatibility (userProfile candidate : UserProfile) : ℚ :=
  if !(jsStrTruthy userProfile.personalInfo.education) ||
     !(jsStrTruthy candidate.personalInfo.education) then 0.5
  else
    let userLevel := getEducationLevel ((userProfile.personalInfo.education).getD "")
    let candidateLevel := getEducationLevel ((candidate.personalInfo.education).getD "")
    let difference := |userLevel - candidateLevel|
    if difference = 0 then 1.0
    else if difference = 1 then 0.8
    else if difference = 2 then 0.6
    else 0.4

/-- `calculateOccupationCompatibility` (placeholder neutral score). -/
def calculateOccupationCompatibility (userProfile candidate : UserProfile) : ℚ := 0.5

/-- `calculateInterestsCompatibility`: overlap ratio of interests,
capped at 1. -/
def calculateInterestsCompatibility (userProfile candidate : UserProfile) : ℚ :=
  let userInterests := (userProfile.personalInfo.interests).getD []
  let candidateInterests := (candidate.personalInfo.interests).getD []
  if userInterests.length = 0 ∨ candidateInterests.length = 0 then 0.5
  else
    let commonInterests := userInterests.filter (fun interest => candidateInterests.contains interest)
    let compatibility : ℚ :=
      (commonInterests.length : ℚ) / (min userInterests.length candidateInterests.length : ℕ)
    min compatibility 1.0

/-- `calculateLanguageCompatibility`. -/
def calculateLanguageCompatibility (userProfile candidate : UserProfile) : ℚ :=
  let userLanguages := (userProfile.personalInfo.languages).getD []
  let candidateLanguages := (candidate.personalInfo.languages).getD []
  if userLanguages.length = 0 ∨ candidateLanguages.length = 0 then 0.7
  else if userLanguages.any (fun lang => candidateLanguages.contains lang) then 1.0
  else 0.2

/-- `calculateRelationshipTypeCompatibility`. -/
def calculateRelationshipTypeCompatibility (userProfile candidate : UserProfile) : ℚ :=
  let userLookingFor := (userProfile.personalInfo.lookingFor).getD []
  let candidateLookingFor := (candidate.personalInfo.lookingFor).getD []
  if userLookingFor.any (fun t => candidateLookingFor.contains t) then 1.0 else 0.2

/-- `calculateSexualOrientationCompatibility`. -/
def calculateSexualOrientationCompatibility (userProfile candidate : UserProfile) : ℚ :=
  if userProfile.personalInfo.sexualOrientation = candidate.personalInfo.sexualOrientation then 1.0
  else if userProfile.personalInfo.sexualOrientation = "bisexual" ∨
          candidate.personalInfo.sexualOrientation = "bisexual" then 0.8
  else 0.3

/-- `calculateCommitmentCompatibility` (placeholder neutral score). -/
def calculateCommitmentCompatibility (userProfile candidate : UserProfile) : ℚ := 0.5

/-- `calculateFamilyGoalsCompatibility` (placeholder neutral score). -/
def calculateFamilyGoalsCompatibility (userProfile candidate : UserProfile) : ℚ := 0.5

/-! ## Category scorers -/

/-- Breakdown of the physical category score. -/
structure PhysicalBreakdown where
  bodyType : ℚ
  height : ℚ
  age : ℚ
  appearance : ℚ
deriving DecidableEq, Repr

/-- The physical category: score plus breakdown. -/
structure PhysicalScore where
  score : ℚ
  breakdown : PhysicalBreakdown
deriving DecidableEq, Repr

/-- Breakdown of the lifestyle category score. -/
structure LifestyleBreakdown where
  smoking : ℚ
  drinking : ℚ
  exercise : ℚ
  diet : ℚ
  socialHabits : ℚ
deriving DecidableEq, Repr

/-- The lifestyle category: score plus breakdown. -/
structure LifestyleScore where
  score : ℚ
  breakdown : LifestyleBreakdown
deriving DecidableEq, Repr

/-- Breakdown of the social category score. -/
structure SocialBreakdown where
  education : ℚ
  occupation : ℚ
  interests : ℚ
  languages : ℚ
  personality : ℚ
deriving DecidableEq, Repr

/-- The social category: score plus breakdown. -/
structure SocialScore where
  score : ℚ
  breakdown : SocialBreakdown
deriving DecidableEq, Repr

/-- Breakdown of the relationship category score. -/
structure RelationshipBreakdown where
  relationshipType : ℚ
  sexualOrientation : ℚ
  commitmentLevel : ℚ
  familyGoals : ℚ
  communication : ℚ
deriving DecidableEq, Repr

/-- The relationship category: score plus breakdown. -/
structure RelationshipScore where
  score : ℚ
  breakdown : RelationshipBreakdown
deriving DecidableEq, Repr

/-- The four category scores (`CategoryScores` in `types/matching`). -/
structure CategoryScores where
  physical : PhysicalScore
  lifestyle : LifestyleScore
  social : SocialScore
  relationship : RelationshipScore
deriving DecidableEq, Repr

/-- `calculatePhysicalScore`: accumulates four sub-factors and divides
by the factor count. -/
def calculatePhysicalScore (userProfile candidate : UserProfile) : PhysicalScore :=
  let bodyTypeScore := calculateBodyTypeCompatibility userProfile candidate
  let heightScore := calculateHeightCompatibility userProfile candidate
  let ageScore := calculateAgeCompatibility userProfile candidate
  let appearanceScore := calculateAppearanceScore candidate
  let totalScore := bodyTypeScore + heightScore + ageScore + appearanceScore
  let factorCount : ℚ := 4
  let averageScore := if 0 < factorCount then totalScore / factorCount else 0
  { score := averageScore
    breakdown :=
      { bodyType := bodyTypeScore, height := heightScore,
        age := ageScore, appearance := appearanceScore } }

/-- `calculateLifestyleScore`: five sub-factors. -/
def calculateLifestyleScore (userProfile candidate : UserProfile) : LifestyleScore :=
  let smokingScore := calculateSmokingCompatibility userProfile candidate
  let drinkingScore := calculateDrinkingCompatibility userProfile candidate
  let exerciseScore := calculateExerciseCompatibility userProfile candidate
  let dietScore := calculateDietCompatibility userProfile candidate
  let socialScore := calculateSocialHabitsCompatibility userProfile candidate
  let totalScore := smokingScore + drinkingScore + exerciseScore + dietScore + socialScore
  let factorCount : ℚ := 5
  let averageScore := if 0 < factorCount then totalScore / factorCount else 0.5
  { score := averageScore
    breakdown :=
      { smoking := smokingScore, drinking := drinkingScore,
        exercise := exerciseScore, diet := dietScore, socialHabits := socialScore } }

/-- `calculateSocialScore`: five sub-factors (personality is a fixed
placeholder 0.5). -/
def calculateSocialScore (userProfile candidate : UserProfile) : SocialScore :=
  let educationScore := calculateEducationCompatibility userProfile candidate
  let occupationScore := calculateOccupationCompatibility userProfile candidate
  let interestsScore := calculateInterestsCompatibility userProfile candidate
  let languageScore := calculateLanguageCompatibility userProfile candidate
  let personalityScore : ℚ := 0.5
  let totalScore := educationScore + occupationScore + interestsScore + languageScore + personalityScore
  let factorCount : ℚ := 5
  let averageScore := if 0 < factorCount then totalScore / factorCount else 0.5
  { score := averageScore
    breakdown :=
      { education := educationScore, occupation := occupationScore,
        interests := interestsScore, languages := languageScore,
        personality := personalityScore } }

/-- `calculateRelationshipScore`: five sub-factors (communication is a
fixed placeholder 0.5). -/
def calculateRelationshipScore (userProfile candidate : UserProfile) : RelationshipScore :=
  let relationshipTypeScore := calculateRelationshipTypeCompatibility userProfile candidate
  let orientationScore := calculateSexualOrientationCompatibility userProfile candidate
  let commitmentScore := calculateCommitmentCompatibility userProfile candidate
  let familyScore := calculateFamilyGoalsCompatibility userProfile candidate
  let communicationScore : ℚ := 0.5
  let totalScore := relationshipTypeScore + orientationScore + commitmentScore + familyScore + communicationScore
  let factorCount : ℚ := 5
  let averageScore := if 0 < factorCount then totalScore / factorCount else 0.5
  { score := averageScore
    breakdown :=
      { relationshipType := relationshipTypeScore, sexualOrientation := orientationScore,
        commitmentLevel := commitmentScore, familyGoals := familyScore,
        communication := communicationScore } }

/-- `calculateCategoryScores`: the four category scorers bundled. -/
def calculateCategoryScores (userProfile candidate : UserProfile) : CategoryScores :=
  { physical := calculatePhysicalScore userProfile candidate
    lifestyle := calculateLifestyleScore userProfile candidate
    social := calculateSocialScore userProfile candidate
    relationship := calculateRelationshipScore userProfile candidate }

/-! ## Weighted aggregation -/

/-- `AdvancedMatchingCriteria.preferenceWeights`. -/
structure PreferenceWeights where
  physical : ℚ
  lifestyle : ℚ
  social : ℚ
  relationship : ℚ
deriving DecidableEq, Repr

/-- `calculateWeightedCompatibility`: normalizes the four weights by
their raw sum (a JavaScript division, so a zero sum produces NaN or
infinities) and dispatches on `config.scoringAlgorithm`.  `pow4` embeds
`Math.pow(x, 1/4)` for finite arguments (in IEEE-754,
`Math.pow(0, 0.25) = 0`). -/
def calculateWeightedCompatibility (scoringAlgorithm : String) (pow4 : ℚ → JsNum)
    (categoryScores : CategoryScores) (weights : PreferenceWeights) : JsNum :=
  let totalWeight := weights.physical + weights.lifestyle + weights.social + weights.relationship
  let nwPhysical := JsNum.div (.num weights.physical) (.num totalWeight)
  let nwLifestyle := JsNum.div (.num weights.lifestyle) (.num totalWeight)
  let nwSocial := JsNum.div (.num weights.social) (.num totalWeight)
  let nwRelationship := JsNum.div (.num weights.relationship) (.num totalWeight)
  if scoringAlgorithm = "weighted_average" then
    JsNum.add
      (JsNum.add
        (JsNum.add
          (JsNum.mul (.num categoryScores.physical.score) nwPhysical)
          (JsNum.mul (.num categoryScores.lifestyle.score) nwLifestyle))
        (JsNum.mul (.num categoryScores.social.score) nwSocial))
      (JsNum.mul (.num categoryScores.relationship.score) nwRelationship)
  else if scoringAlgorithm = "multiplicative" then
    pow4 (categoryScores.physical.score * categoryScores.lifestyle.score *
          categoryScores.social.score * categoryScores.relationship.score)
  else if scoringAlgorithm = "hybrid" then
    let weightedAverage :=
      JsNum.add
        (JsNum.add
          (JsNum.add
            (JsNum.mul (.num categoryScores.physical.score) nwPhysical)
            (JsNum.mul (.num categoryScores.lifestyle.score) nwLifestyle))
          (JsNum.mul (.num categoryScores.social.score) nwSocial))
        (JsNum.mul (.num categoryScores.relationship.score) nwRelationship)
    let minScore :=
      min (min (min categoryScores.physical.score categoryScores.lifestyle.score)
        categoryScores.social.score) categoryScores.relationship.score
    let penalty : ℚ := if minScore < 0.3 then minScore / 0.3 else 1
    JsNum.mul weightedAverage (.num penalty)
  else .num 0.5

/-! ## Preference-alignment analysis

`analyzeMustHaves` and `analyzeNiceToHaves` call `Math.random()` once
per item; randomness is embedded as a stream `rng : ℕ → ℚ` of the
values produced by successive `Math.random()` calls, consumed from a
starting index. -/

/-- Deal-breaker analysis result. -/
structure DealBreakerAnalysis where
  passed : Bool
  triggeredDealBreakers : List String
  passedDealBreakers : List String
deriving DecidableEq, Repr

/-- `analyzeDealBreakers`: partitions the deal-breaker list by whether
each one is triggered. -/
def analyzeDealBreakers (now : ℚ) (userProfile candidate : UserProfile)
    (dealBreakers : List String) : DealBreakerAnalysis :=
  let triggeredDealBreakers :=
    dealBreakers.filter (fun d => isDealBreakerTriggered now userProfile candidate d)
  let passedDealBreakers :=
    dealBreakers.filter (fun d => !(isDealBreakerTriggered now userProfile candidate d))
  { passed := triggeredDealBreakers.length == 0
    triggeredDealBreakers := triggeredDealBreakers
    passedDealBreakers := passedDealBreakers }

/-- Must-have analysis result. -/
structure MustHaveAnalysis where
  totalMustHaves : ℕ
  satisfiedMustHaves : ℕ
  satisfiedItems : List String
  missedItems : List String
deriving DecidableEq, Repr

/-- `analyzeMustHaves`: for each must-have the source draws
`Math.random()` and counts it satisfied when the draw exceeds 0.3. -/
def analyzeMustHaves (rng : ℕ → ℚ) (start : ℕ) (mustHaves : List String) : MustHaveAnalysis :=
  let satisfiedItems :=
    ((mustHaves.enum).filter (fun p => decide (0.3 < rng (start + p.1)))).map Prod.snd
  let missedItems :=
    ((mustHaves.enum).filter (fun p => !(decide (0.3 < rng (start + p.1))))).map Prod.snd
  { totalMustHaves := mustHaves.length
    satisfiedMustHaves := satisfiedItems.length
    satisfiedItems := satisfiedItems
    missedItems := missedItems }

/-- Nice-to-have analysis result. -/
structure NiceToHaveAnalysis where
  totalNiceToHaves : ℕ
  matchedNiceToHaves : ℕ
  matchedItems : List String
  missedItems : List String
deriving DecidableEq, Repr

/-- `analyzeNiceToHaves`: a fresh `Math.random()` draw per item,
matched when the draw exceeds 0.5. -/
def analyzeNiceToHaves (rng : ℕ → ℚ) (start : ℕ) (niceToHaves : List String) : NiceToHaveAnalysis :=
  let matchedItems :=
    ((niceToHaves.enum).filter (fun p => decide (0.5 < rng (start + p.1)))).map Prod.snd
  let missedItems :=
    ((niceToHaves.enum).filter (fun p => !(decide (0.5 < rng (start + p.1))))).map Prod.snd
  { totalNiceToHaves := niceToHaves.length
    matchedNiceToHaves := matchedItems.length
    matchedItems := matchedItems
    missedItems := missedItems }

/-- Matched/mismatched preference label lists per category. -/
structure PreferenceLists where
  physical : List String
  lifestyle : List String
  social : List String
  relationship : List String
deriving DecidableEq, Repr

/-- `analyzePreferenceMatches`: the source currently returns empty
matched and mismatched lists. -/
def analyzePreferenceMatches (userProfile candidate : UserProfile) :
    PreferenceLists × PreferenceLists :=
  (⟨[], [], [], []⟩, ⟨[], [], [], []⟩)

/-- The slice of `AdvancedMatchingCriteria` consumed by
`analyzePreferenceMatch` and the `findAdvancedMatches` ranking. -/
structure AdvancedCriteria where
  preferenceWeights : PreferenceWeights
  dealBreakers : List String
  mustHaves : List String
  niceToHaves : List String
deriving DecidableEq, Repr

/-- `PreferenceAlignment` (result of `analyzePreferenceMatch`). -/
structure PreferenceAlignment where
  totalScore : JsNum
  categoryAlignments : CategoryScores
  matchedPreferences : PreferenceLists
  mismatchedPreferences : PreferenceLists
  dealBreakerAnalysis : DealBreakerAnalysis
  mustHaveAnalysis : MustHaveAnalysis
  niceToHaveAnalysis : NiceToHaveAnalysis
deriving DecidableEq, Repr

/-- `analyzePreferenceMatch`: category scoring, weighted aggregation,
then the deal-breaker / must-have / nice-to-have analyses.  The random
stream is consumed first by the must-haves (one draw each) and then by
the nice-to-haves. -/
def analyzePreferenceMatch (scoringAlgorithm : String) (pow4 : ℚ → JsNum)
    (now : ℚ) (rng : ℕ → ℚ) (userProfile candidate : UserProfile)
    (criteria : AdvancedCriteria) : PreferenceAlignment :=
  let categoryScores := calculateCategoryScores userProfile candidate
  let totalScore :=
    calculateWeightedCompatibility scoringAlgorithm pow4 categoryScores criteria.preferenceWeights
  let prefs := analyzePreferenceMatches userProfile candidate
  let dealBreakerAnalysis := analyzeDealBreakers now userProfile candidate criteria.dealBreakers
  let mustHaveAnalysis := analyzeMustHaves rng 0 criteria.mustHaves
  let niceToHaveAnalysis := analyzeNiceToHaves rng criteria.mustHaves.length criteria.niceToHaves
  { totalScore := totalScore
    categoryAlignments := categoryScores
    matchedPreferences := prefs.1
    mismatchedPreferences := prefs.2
    dealBreakerAnalysis := dealBreakerAnalysis
    mustHaveAnalysis := mustHaveAnalysis
    niceToHaveAnalysis := niceToHaveAnalysis }

end PreferenceFiltering

namespace MatchingService

open PreferenceFiltering

/-- `AdvancedMatchingCriteria.minimumThresholds`: `overall` is
mandatory, the per-category thresholds are optional. -/
structure MinimumThresholds where
  overall : ℚ
  physical : Option ℚ
  lifestyle : Option ℚ
  social : Option ℚ
  relationship : Option ℚ
deriving DecidableEq, Repr

/-- `meetsMinimumThresholds`: rejects when the total score is below
`thresholds.overall`, or when any *truthy* per-category threshold
(present and nonzero, per JavaScript `if (thresholds.x && ...)`)
exceeds that category's score. -/
def meetsMinimumThresholds (preferenceAlignment : PreferenceAlignment)
    (thresholds : MinimumThresholds) : Bool :=
  if JsNum.jlt preferenceAlignment.totalScore (.num thresholds.overall) then false
  else
    let categoryScores := preferenceAlignment.categoryAlignments
    if jsNumTruthy thresholds.physical &&
       decide (categoryScores.physical.score < (thresholds.physical).getD 0) then false
    else if jsNumTruthy thresholds.lifestyle &&
       decide (categoryScores.lifestyle.score < (thresholds.lifestyle).getD 0) then false
    else if jsNumTruthy thresholds.social &&
       decide (categoryScores.social.score < (thresholds.social).getD 0) then false
    else if jsNumTruthy thresholds.relationship &&
       decide (categoryScores.relationship.score < (thresholds.relationship).getD 0) then false
    else true

/-! ## Criteria validation (`validateMatchingCriteria`) -/

/-- `config.maxRadius` of the `MatchingService` default configuration
(kilometres). -/
def maxRadius : ℚ := 100

/-- The basic matching criteria fields read by
`validateMatchingCriteria`. -/
structure BasicCriteriaPreferences where
  maxDistance : ℚ
  ageRange : Option AgeRange
deriving DecidableEq, Repr

/-- `MatchingCriteria`, restricted to what validation reads. -/
structure MatchingCriteria where
  preferences : BasicCriteriaPreferences
deriving DecidableEq, Repr

/-- The two validation failures `validateMatchingCriteria` can throw. -/
inductive CriteriaError where
  | maxDistanceExceeded : CriteriaError
  | invalidAgeRange : CriteriaError
deriving DecidableEq, Repr

/-- The age-range check of `validateMatchingCriteria`: an age range is
present with `min < 18` or `max > 99`. -/
def ageRangeViolated (criteria : MatchingCriteria) : Bool :=
  match criteria.preferences.ageRange with
  | none => false
  | some r => decide (r.lo < 18) || decide (99 < r.hi)

/-- `validateMatchingCriteria`: a sequence of independent checks, each
of which `throw`s immediately (so only the first violation surfaces).
`none` means validation passed. -/
def validateMatchingCriteria (criteria : MatchingCriteria) : Option CriteriaError :=
  if maxRadius < criteria.preferences.maxDistance then some .maxDistanceExceeded
  else if ageRangeViolated criteria then some .invalidAgeRange
  else none

/-! ## The `findAdvancedMatches` ranking sort (Phase 4) -/

/-- The fields of `PreferenceMatchResult` consumed by the Phase-4 sort:
the basic location score and the advanced compatibility score. -/
structure RankedMatch where
  targetUserId : String
  score : ℚ
  compatibilityScore : ℚ
deriving DecidableEq, Repr

/-- The JavaScript comparator passed to `preferenceMatches.sort`:
signed difference of compatibility scores in the requested direction
when sorting by compatibility, otherwise signed difference of basic
scores (descending). -/
def matchComparator (sortBy direction : String) (a b : RankedMatch) : ℚ :=
  if sortBy = "compatibility" then
    if direction = "desc" then b.compatibilityScore - a.compatibilityScore
    else a.compatibilityScore - b.compatibilityScore
  else b.score - a.score

/-- Phase 4 of `findAdvancedMatches`: `Array.prototype.sort` with
`matchComparator`.  ECMAScript mandates a stable sort, so it is embedded
as a stable merge sort ordered by "comparator ≤ 0". -/
def sortPreferenceMatches (sortBy direction : String) (results : List RankedMatch) :
    List RankedMatch :=
  results.mergeSort (fun a b => decide (matchComparator sortBy direction a b ≤ 0))

/-- The ordering the specification claims for the ranked list:
descending compatibility, with exact ties ordered by candidate id. -/
def rankedByCompatibilityThenId (l : List RankedMatch) : Prop :=
  l.Pairwise (fun a b => b.compatibilityScore < a.compatibilityScore ∨
    (a.compatibilityScore = b.compatibilityScore ∧ a.targetUserId < b.targetUserId))

end MatchingService

/-! ## Concrete fixtures used to instantiate the theorems -/

/-- A concrete category-score bundle with all values in `[0,1]`. -/
def sampleScores : PreferenceFiltering.CategoryScores :=
  { physical := { score := 0.8, breakdown := ⟨0.8, 0.8, 0.8, 0.8⟩ }
    lifestyle := { score := 0.6, breakdown := ⟨0.6, 0.6, 0.6, 0.6, 0.6⟩ }
    social := { score := 0.5, breakdown := ⟨0.5, 0.5, 0.5, 0.5, 0.5⟩ }
    relationship := { score := 0.4, breakdown := ⟨0.4, 0.4, 0.4, 0.4, 0.4⟩ } }

/-- A concrete category-score bundle whose physical score is exactly 0. -/
def zeroPhysicalScores : PreferenceFiltering.CategoryScores :=
  { physical := { score := 0, breakdown := ⟨0, 0, 0, 0⟩ }
    lifestyle := { score := 0.9, breakdown := ⟨0.9, 0.9, 0.9, 0.9, 0.9⟩ }
    social := { score := 1, breakdown := ⟨1, 1, 1, 1, 1⟩ }
    relationship := { score := 0.7, breakdown := ⟨0.7, 0.7, 0.7, 0.7, 0.7⟩ } }

/-- A concrete stand-in for `Math.pow(x, 1/4)`; it agrees with the real
function at 0 (`pow4Sample 0 = 0`). -/
def pow4Sample : ℚ → JsNum := fun q => JsNum.num q

/-- The default preference weights of the service configuration. -/
def wSample : PreferenceFiltering.PreferenceWeights := ⟨0.3, 0.25, 0.25, 0.2⟩

/-- A concrete preference alignment for threshold tests. -/
def samplePA : PreferenceFiltering.PreferenceAlignment :=
  { totalScore := JsNum.num 0.7
    categoryAlignments := sampleScores
    matchedPreferences := ⟨[], [], [], []⟩
    mismatchedPreferences := ⟨[], [], [], []⟩
    dealBreakerAnalysis := ⟨true, [], []⟩
    mustHaveAnalysis := ⟨0, 0, [], []⟩
    niceToHaveAnalysis := ⟨0, 0, [], []⟩ }

/-- A minimal profile with the given id and every optional field
absent. -/
def blankProfile (id : String) : UserProfile :=
  { userId := id
    personalInfo :=
      { age := 25, height := none, bodyType := none, education := none,
        languages := none, interests := none, lookingFor := none,
        sexualOrientation := "straight", lifestyle := none }
    photos := none
    preferences := none
    verification := none
    lastActiveAt := none
    createdAt := none }

/-- A ranked match with id `"bob"`; same scores as `matchAlice`. -/
def matchBob : MatchingService.RankedMatch := ⟨"bob", 0.4, 0.5⟩

/-- A ranked match with id `"alice"`; same scores as `matchBob`. -/
def matchAlice : MatchingService.RankedMatch := ⟨"alice", 0.4, 0.5⟩

/-- Criteria violating both the distance check and the age-range
check. -/
def badCriteria : MatchingService.MatchingCriteria := ⟨⟨150, some ⟨17, 120⟩⟩⟩

/-- Criteria violating only the age-range check. -/
def ageOnlyBadCriteria : MatchingService.MatchingCriteria := ⟨⟨50, some ⟨17, 120⟩⟩⟩

/-- A weight quadruple that is entirely non-positive with strictly
negative sum. -/
def wNeg : PreferenceFiltering.PreferenceWeights := ⟨-1, -2, 0, 0⟩

/-! ## Helper lemmas -/

theorem JsNum.div_num_num {a b : ℚ} (hb : b ≠ 0) :
    JsNum.div (.num a) (.num b) = .num (a / b) := by
  simp [JsNum.div, hb]

theorem weighted_average_eq (pow4 : ℚ → JsNum)
    (cs : PreferenceFiltering.CategoryScores) (w : PreferenceFiltering.PreferenceWeights)
    (hW : w.physical + w.lifestyle + w.social + w.relationship ≠ 0) :
    PreferenceFiltering.calculateWeightedCompatibility "weighted_average" pow4 cs w =
      JsNum.num ((cs.physical.score * w.physical + cs.lifestyle.score * w.lifestyle +
        cs.social.score * w.social + cs.relationship.score * w.relationship) /
        (w.physical + w.lifestyle + w.social + w.relationship)) := by
  unfold PreferenceFiltering.calculateWeightedCompatibility
  rw [if_pos rfl]
  simp only [JsNum.div_num_num hW, JsNum.mul, JsNum.add, JsNum.num.injEq]
  ring

/-- C1: under the `weighted_average` algorithm, for any four
non-negative weights with positive sum the aggregate equals the sum
over the four categories of score·weight/totalWeight, and this value is
invariant under uniformly scaling all four weights by any positive
constant. -/
theorem weightedAverage_formula_scaleInvariant (pow4 : ℚ → JsNum)
    (cs : PreferenceFiltering.CategoryScores) (w : PreferenceFiltering.PreferenceWeights)
    (hp : 0 ≤ w.physical) (hl : 0 ≤ w.lifestyle) (hs : 0 ≤ w.social) (hr : 0 ≤ w.relationship)
    (hsum : 0 < w.physical + w.lifestyle + w.social + w.relationship) :
    PreferenceFiltering.calculateWeightedCompatibility "weighted_average" pow4 cs w =
      JsNum.num
        (cs.physical.score * w.physical /
            (w.physical + w.lifestyle + w.social + w.relationship) +
         cs.lifestyle.score * w.lifestyle /
            (w.physical + w.lifestyle + w.social + w.relationship) +
         cs.social.score * w.social /
            (w.physical + w.lifestyle + w.social + w.relationship) +
         cs.relationship.score * w.relationship /
            (w.physical + w.lifestyle + w.social + w.relationship)) ∧
    ∀ c : ℚ, 0 < c →
      PreferenceFiltering.calculateWeightedCompatibility "weighted_average" pow4 cs
        ⟨c * w.physical, c * w.lifestyle, c * w.social, c * w.relationship⟩ =
      PreferenceFiltering.calculateWeightedCompatibility "weighted_average" pow4 cs w := by
  have hW : w.physical + w.lifestyle + w.social + w.relationship ≠ 0 := ne_of_gt hsum
  constructor
  · rw [weighted_average_eq pow4 cs w hW]
    congr 1
    ring
  · intro c hc
    have hW2 : c * w.physical + c * w.lifestyle + c * w.social + c * w.relationship ≠ 0 := by
      have he : c * w.physical + c * w.lifestyle + c * w.social + c * w.relationship =
          c * (w.physical + w.lifestyle + w.social + w.relationship) := by ring
      rw [he]
      exact mul_ne_zero (ne_of_gt hc) hW
    rw [weighted_average_eq pow4 cs ⟨c * w.physical, c * w.lifestyle, c * w.social,
      c * w.relationship⟩ hW2, weighted_average_eq pow4 cs w hW]
    congr 1
    field_simp
    ring

/-- Witness for C1 at the default weights and a doubling factor. -/
theorem weightedAverage_formula_scaleInvariant_witness :
    (0 ≤ wSample.physical ∧ 0 ≤ wSample.lifestyle ∧ 0 ≤ wSample.social ∧
      0 ≤ wSample.relationship ∧
      0 < wSample.physical + wSample.lifestyle + wSample.social + wSample.relationship ∧
      (0:ℚ) < 2) ∧
    PreferenceFiltering.calculateWeightedCompatibility "weighted_average" pow4Sample
      sampleScores wSample =
      JsNum.num
        (sampleScores.physical.score * wSample.physical /
            (wSample.physical + wSample.lifestyle + wSample.social + wSample.relationship) +
         sampleScores.lifestyle.score * wSample.lifestyle /
            (wSample.physical + wSample.lifestyle + wSample.social + wSample.relationship) +
         sampleScores.social.score * wSample.social /
            (wSample.physical + wSample.lifestyle + wSample.social + wSample.relationship) +
         sampleScores.relationship.score * wSample.relationship /
            (wSample.physical + wSample.lifestyle + wSample.social + wSample.relationship)) ∧
    PreferenceFiltering.calculateWeightedCompatibility "weighted_average" pow4Sample
      sampleScores ⟨2 * wSample.physical, 2 * wSample.lifestyle, 2 * wSample.social,
        2 * wSample.relationship⟩ =
    PreferenceFiltering.calculateWeightedCompatibility "weighted_average" pow4Sample
      sampleScores wSample :=
  ⟨⟨by norm_num [wSample], by norm_num [wSample], by norm_num [wSample],
    by norm_num [wSample], by norm_num [wSample], by norm_num⟩,
   (weightedAverage_formula_scaleInvariant pow4Sample sampleScores wSample
      (by norm_num [wSample]) (by norm_num [wSample]) (by norm_num [wSample])
      (by norm_num [wSample]) (by norm_num [wSample])).1,
   (weightedAverage_formula_scaleInvariant pow4Sample sampleScores wSample
      (by norm_num [wSample]) (by norm_num [wSample]) (by norm_num [wSample])
      (by norm_num [wSample]) (by norm_num [wSample])).2 2 (by norm_num)⟩

/-- C4 counterexample: with all four weights exactly 0 (a quadruple
that is "all zero or negative"), no clamping happens; normalization
divides 0 by 0 and the `weighted_average` aggregate is NaN, not a safe
neutral score in `[0,1]`. -/
theorem zeroWeights_weightedAverage_nan :
    PreferenceFiltering.calculateWeightedCompatibility "weighted_average" pow4Sample
      sampleScores ⟨0, 0, 0, 0⟩ = JsNum.nan := by
  unfold PreferenceFiltering.calculateWeightedCompatibility
  rw [if_pos rfl]
  norm_num [JsNum.div, JsNum.mul, JsNum.add]

/-- C4 (amended): the code never clamps weights.  For an all-non-positive
weight quadruple with strictly *negative* sum, `weighted_average` does
return a well-defined value in `[0,1]` for category scores in `[0,1]`
(the normalized weights are again a convex combination); but when the
raw sum is zero (all weights 0) the result is NaN, as the
counterexample shows. -/
theorem nonpositiveWeights_weightedAverage_safe (pow4 : ℚ → JsNum)
    (cs : PreferenceFiltering.CategoryScores) (w : PreferenceFiltering.PreferenceWeights)
    (hp : w.physical ≤ 0) (hl : w.lifestyle ≤ 0) (hs : w.social ≤ 0) (hr : w.relationship ≤ 0)
    (hsum : w.physical + w.lifestyle + w.social + w.relationship < 0)
    (h1 : 0 ≤ cs.physical.score) (h2 : cs.physical.score ≤ 1)
    (h3 : 0 ≤ cs.lifestyle.score) (h4 : cs.lifestyle.score ≤ 1)
    (h5 : 0 ≤ cs.social.score) (h6 : cs.social.score ≤ 1)
    (h7 : 0 ≤ cs.relationship.score) (h8 : cs.relationship.score ≤ 1) :
    ∃ r : ℚ, PreferenceFiltering.calculateWeightedCompatibility "weighted_average" pow4 cs w =
      JsNum.num r ∧ 0 ≤ r ∧ r ≤ 1 := by
  have hW : w.physical + w.lifestyle + w.social + w.relationship ≠ 0 := ne_of_lt hsum
  have e1 : cs.physical.score * w.physical ≤ 0 :=
    mul_nonpos_iff.mpr (Or.inl ⟨h1, hp⟩)
  have e2 : cs.lifestyle.score * w.lifestyle ≤ 0 :=
    mul_nonpos_iff.mpr (Or.inl ⟨h3, hl⟩)
  have e3 : cs.social.score * w.social ≤ 0 :=
    mul_nonpos_iff.mpr (Or.inl ⟨h5, hs⟩)
  have e4 : cs.relationship.score * w.relationship ≤ 0 :=
    mul_nonpos_iff.mpr (Or.inl ⟨h7, hr⟩)
  have f1 : w.physical ≤ cs.physical.score * w.physical := by
    nlinarith [mul_nonneg (sub_nonneg.mpr h2) (neg_nonneg.mpr hp)]
  have f2 : w.lifestyle ≤ cs.lifestyle.score * w.lifestyle := by
    nlinarith [mul_nonneg (sub_nonneg.mpr h4) (neg_nonneg.mpr hl)]
  have f3 : w.social ≤ cs.social.score * w.social := by
    nlinarith [mul_nonneg (sub_nonneg.mpr h6) (neg_nonneg.mpr hs)]
  have f4 : w.relationship ≤ cs.relationship.score * w.relationship := by
    nlinarith [mul_nonneg (sub_nonneg.mpr h8) (neg_nonneg.mpr hr)]
  refine ⟨_, weighted_average_eq pow4 cs w hW, ?_, ?_⟩
  · rw [le_div_iff_of_neg hsum]
    nlinarith
  · rw [div_le_one_iff]
    right; right
    exact ⟨hsum, by linarith⟩

/-- Witness for the amended C4 at a concrete non-positive weight
quadruple. -/
theorem nonpositiveWeights_weightedAverage_safe_witness :
    (wNeg.physical ≤ 0 ∧ wNeg.lifestyle ≤ 0 ∧ wNeg.social ≤ 0 ∧ wNeg.relationship ≤ 0 ∧
      wNeg.physical + wNeg.lifestyle + wNeg.social + wNeg.relationship < 0) ∧
    ∃ r : ℚ, PreferenceFiltering.calculateWeightedCompatibility "weighted_average" pow4Sample
      sampleScores wNeg = JsNum.num r ∧ 0 ≤ r ∧ r ≤ 1 :=
  ⟨⟨by norm_num [wNeg], by norm_num [wNeg], by norm_num [wNeg], by norm_num [wNeg],
    by norm_num [wNeg]⟩,
   nonpositiveWeights_weightedAverage_safe pow4Sample sampleScores wNeg
    (by norm_num [wNeg]) (by norm_num [wNeg]) (by norm_num [wNeg]) (by norm_num [wNeg])
    (by norm_num [wNeg])
    (by norm_num [sampleScores]) (by norm_num [sampleScores])
    (by norm_num [sampleScores]) (by norm_num [sampleScores])
    (by norm_num [sampleScores]) (by norm_num [sampleScores])
    (by norm_num [sampleScores]) (by norm_num [sampleScores])⟩

/-- C2: under the `multiplicative` algorithm the aggregate is the
fourth root of the product of the four category scores (embedded as
`pow4`, with `pow4 0 = 0` as for IEEE `Math.pow(0, 0.25)`); if any
category score is exactly 0 the product is 0 and the aggregate is
exactly 0, whatever the other scores and the weights. -/
theorem multiplicative_zero_collapse (pow4 : ℚ → JsNum) (hpow : pow4 0 = JsNum.num 0)
    (cs : PreferenceFiltering.CategoryScores) (w : PreferenceFiltering.PreferenceWeights)
    (h1 : 0 ≤ cs.physical.score) (h2 : cs.physical.score ≤ 1)
    (h3 : 0 ≤ cs.lifestyle.score) (h4 : cs.lifestyle.score ≤ 1)
    (h5 : 0 ≤ cs.social.score) (h6 : cs.social.score ≤ 1)
    (h7 : 0 ≤ cs.relationship.score) (h8 : cs.relationship.score ≤ 1)
    (hzero : cs.physical.score = 0 ∨ cs.lifestyle.score = 0 ∨
      cs.social.score = 0 ∨ cs.relationship.score = 0) :
    PreferenceFiltering.calculateWeightedCompatibility "multiplicative" pow4 cs w =
      JsNum.num 0 := by
  have hprod : cs.physical.score * cs.lifestyle.score *
      cs.social.score * cs.relationship.score = 0 := by
    rcases hzero with h | h | h | h <;> rw [h] <;> ring
  unfold PreferenceFiltering.calculateWeightedCompatibility
  rw [if_neg (by simp), if_pos rfl, hprod, hpow]

/-- Witness for C2 at a zero physical score. -/
theorem multiplicative_zero_collapse_witness :
    pow4Sample 0 = JsNum.num 0 ∧ zeroPhysicalScores.physical.score = 0 ∧
    PreferenceFiltering.calculateWeightedCompatibility "multiplicative" pow4Sample
      zeroPhysicalScores wSample = JsNum.num 0 :=
  ⟨rfl, rfl,
   multiplicative_zero_collapse pow4Sample rfl zeroPhysicalScores wSample
    (by norm_num [zeroPhysicalScores]) (by norm_num [zeroPhysicalScores])
    (by norm_num [zeroPhysicalScores]) (by norm_num [zeroPhysicalScores])
    (by norm_num [zeroPhysicalScores]) (by norm_num [zeroPhysicalScores])
    (by norm_num [zeroPhysicalScores]) (by norm_num [zeroPhysicalScores])
    (Or.inl rfl)⟩

/-- C3: for a fixed alignment (fixed overall and per-category scores)
and fixed per-category thresholds, passing `meetsMinimumThresholds` at
a higher overall threshold implies passing at any lower overall
threshold, so raising `thresholds.overall` can only shrink the passing
set. -/
theorem overallThreshold_monotone (pa : PreferenceFiltering.PreferenceAlignment)
    (tp tl ts tr : Option ℚ) (lo hi : ℚ) (hle : lo ≤ hi)
    (hpass : MatchingService.meetsMinimumThresholds pa ⟨hi, tp, tl, ts, tr⟩ = true) :
    MatchingService.meetsMinimumThresholds pa ⟨lo, tp, tl, ts, tr⟩ = true := by
  unfold MatchingService.meetsMinimumThresholds at hpass ⊢
  dsimp only at hpass ⊢
  cases hjl : JsNum.jlt pa.totalScore (JsNum.num hi) with
  | true =>
    rw [hjl] at hpass
    simp at hpass
  | false =>
    rw [hjl] at hpass
    rw [if_neg Bool.false_ne_true] at hpass
    have hlo : JsNum.jlt pa.totalScore (JsNum.num lo) = false := by
      cases htot : pa.totalScore with
      | nan => simp [JsNum.jlt]
      | inf s =>
        rw [htot] at hjl
        cases s
        · simp [JsNum.jlt] at hjl
        · simp [JsNum.jlt]
      | num a =>
        rw [htot] at hjl
        simp only [JsNum.jlt, decide_eq_false_iff_not] at hjl ⊢
        intro hcon
        exact hjl (lt_of_lt_of_le hcon hle)
    rw [hlo, if_neg Bool.false_ne_true]
    exact hpass

/-- Witness for C3: the sample alignment passes at overall 0.7 and
hence at overall 0.6. -/
theorem overallThreshold_monotone_witness :
    (0.6 : ℚ) ≤ 0.7 ∧
    MatchingService.meetsMinimumThresholds samplePA ⟨0.7, none, none, none, none⟩ = true ∧
    MatchingService.meetsMinimumThresholds samplePA ⟨0.6, none, none, none, none⟩ = true := by
  have hpass : MatchingService.meetsMinimumThresholds samplePA ⟨0.7, none, none, none, none⟩ = true := by
    norm_num [MatchingService.meetsMinimumThresholds, samplePA, JsNum.jlt, jsNumTruthy]
  exact ⟨by norm_num, hpass,
    overallThreshold_monotone samplePA none none none none 0.6 0.7 (by norm_num) hpass⟩

/-- C6: the scoring path of `analyzePreferenceMatch` — the category
scores and the weighted overall score — is identical across two runs
with different `Math.random()` streams: no randomness influences these
outputs, even though the must-have and nice-to-have helpers invoked
alongside them consume the random stream. -/
theorem scoringPath_deterministic (scoringAlgorithm : String) (pow4 : ℚ → JsNum)
    (now : ℚ) (r1 r2 : ℕ → ℚ) (u c : UserProfile)
    (crit : PreferenceFiltering.AdvancedCriteria) :
    (PreferenceFiltering.analyzePreferenceMatch scoringAlgorithm pow4 now r1 u c crit).totalScore =
      (PreferenceFiltering.analyzePreferenceMatch scoringAlgorithm pow4 now r2 u c crit).totalScore ∧
    (PreferenceFiltering.analyzePreferenceMatch scoringAlgorithm pow4 now r1 u c crit).categoryAlignments =
      (PreferenceFiltering.analyzePreferenceMatch scoringAlgorithm pow4 now r2 u c crit).categoryAlignments :=
  ⟨rfl, rfl⟩

/-- C10: a candidate with no `lastActiveAt` defaults the days-since-
active to 999 > 14, so `inactive_users` always triggers; a candidate
with no `createdAt` defaults days-since-created to 999, which is not
below 1, so `new_profiles` never triggers. -/
theorem missingTimestamps_asymmetric (now : ℚ) (u c : UserProfile) :
    (c.lastActiveAt = none →
      PreferenceFiltering.isDealBreakerTriggered now u c "inactive_users" = true) ∧
    (c.createdAt = none →
      PreferenceFiltering.isDealBreakerTriggered now u c "new_profiles" = false) := by
  constructor
  · intro h
    simp only [PreferenceFiltering.isDealBreakerTriggered, String.reduceEq, reduceIte, h]
    norm_num
  · intro h
    simp only [PreferenceFiltering.isDealBreakerTriggered, String.reduceEq, reduceIte, h]
    norm_num

/-- Witness for C10 at a profile missing both timestamps. -/
theorem missingTimestamps_asymmetric_witness :
    (blankProfile "candidate").lastActiveAt = none ∧
    (blankProfile "candidate").createdAt = none ∧
    PreferenceFiltering.isDealBreakerTriggered 0 (blankProfile "seeker")
      (blankProfile "candidate") "inactive_users" = true ∧
    PreferenceFiltering.isDealBreakerTriggered 0 (blankProfile "seeker")
      (blankProfile "candidate") "new_profiles" = false :=
  ⟨rfl, rfl,
   (missingTimestamps_asymmetric 0 (blankProfile "seeker") (blankProfile "candidate")).1 rfl,
   (missingTimestamps_asymmetric 0 (blankProfile "seeker") (blankProfile "candidate")).2 rfl⟩

/-- C5 counterexample: with both heights missing, both default to 0 and
`|0 - 0| = 0 ≤ 20`, so `height_mismatch` does *not* trigger — refuting
"whenever at least one side's height is missing, the predicate
triggers". -/
theorem heightMismatch_bothMissing_counterexample :
    PreferenceFiltering.isDealBreakerTriggered 0 (blankProfile "seeker")
      (blankProfile "candidate") "height_mismatch" = false := by
  simp only [PreferenceFiltering.isDealBreakerTriggered, String.reduceEq, reduceIte,
    blankProfile]
  norm_num

/-- C5 (amended): `height_mismatch` triggers exactly when the absolute
height difference, with missing heights read as 0, exceeds 20 cm; in
particular a pair with *both* heights missing never triggers (and a
one-sided missing height triggers only when the present height itself
exceeds 20 cm). -/
theorem heightMismatch_spec (now : ℚ) (u c : UserProfile) :
    (PreferenceFiltering.isDealBreakerTriggered now u c "height_mismatch" = true ↔
      20 < |(u.personalInfo.height).getD 0 - (c.personalInfo.height).getD 0|) ∧
    (u.personalInfo.height = none → c.personalInfo.height = none →
      PreferenceFiltering.isDealBreakerTriggered now u c "height_mismatch" = false) := by
  constructor
  · simp only [PreferenceFiltering.isDealBreakerTriggered, String.reduceEq, reduceIte,
      decide_eq_true_eq]
  · intro h1 h2
    simp only [PreferenceFiltering.isDealBreakerTriggered, String.reduceEq, reduceIte, h1, h2]
    norm_num

/-- Witness for the amended C5 at profiles with both heights absent. -/
theorem heightMismatch_spec_witness :
    (blankProfile "seeker").personalInfo.height = none ∧
    (blankProfile "candidate").personalInfo.height = none ∧
    PreferenceFiltering.isDealBreakerTriggered 7 (blankProfile "seeker")
      (blankProfile "candidate") "height_mismatch" = false :=
  ⟨rfl, rfl,
   (heightMismatch_spec 7 (blankProfile "seeker") (blankProfile "candidate")).2 rfl rfl⟩

/-- C8 counterexample: with the distance check *and* the age-range
check both violated, the surfaced error is the single max-distance
error; the age-range violation (shown by `ageRangeViolated`) is not
reported, refuting "a structured error listing every violated
field". -/
theorem validation_firstErrorOnly_counterexample :
    MatchingService.validateMatchingCriteria badCriteria =
      some MatchingService.CriteriaError.maxDistanceExceeded ∧
    MatchingService.ageRangeViolated badCriteria = true := by
  constructor
  · norm_num [MatchingService.validateMatchingCriteria, MatchingService.maxRadius, badCriteria]
  · norm_num [MatchingService.ageRangeViolated, badCriteria]

/-- C8 (amended): validation performs its checks in sequence and throws
at the first violation — max distance before age range — so the caller
receives exactly one error, not a list of every violated field. -/
theorem validation_firstErrorOnly (c : MatchingService.MatchingCriteria) :
    (MatchingService.maxRadius < c.preferences.maxDistance →
      MatchingService.validateMatchingCriteria c =
        some MatchingService.CriteriaError.maxDistanceExceeded) ∧
    (¬ MatchingService.maxRadius < c.preferences.maxDistance →
      MatchingService.ageRangeViolated c = true →
      MatchingService.validateMatchingCriteria c =
        some MatchingService.CriteriaError.invalidAgeRange) ∧
    (¬ MatchingService.maxRadius < c.preferences.maxDistance →
      MatchingService.ageRangeViolated c = false →
      MatchingService.validateMatchingCriteria c = none) := by
  refine ⟨?_, ?_, ?_⟩
  · intro h
    simp [MatchingService.validateMatchingCriteria, h]
  · intro h1 h2
    simp [MatchingService.validateMatchingCriteria, h1, h2]
  · intro h1 h2
    simp [MatchingService.validateMatchingCriteria, h1, h2]

/-- Witness for the amended C8: criteria violating only the age range
produce exactly the age-range error. -/
theorem validation_firstErrorOnly_witness :
    ¬ MatchingService.maxRadius < ageOnlyBadCriteria.preferences.maxDistance ∧
    MatchingService.ageRangeViolated ageOnlyBadCriteria = true ∧
    MatchingService.validateMatchingCriteria ageOnlyBadCriteria =
      some MatchingService.CriteriaError.invalidAgeRange := by
  have h1 : ¬ MatchingService.maxRadius < ageOnlyBadCriteria.preferences.maxDistance := by
    norm_num [MatchingService.maxRadius, ageOnlyBadCriteria]
  have h2 : MatchingService.ageRangeViolated ageOnlyBadCriteria = true := by
    norm_num [MatchingService.ageRangeViolated, ageOnlyBadCriteria]
  exact ⟨h1, h2, (validation_firstErrorOnly ageOnlyBadCriteria).2.1 h1 h2⟩

/-- C7 counterexample: two candidates with identical compatibility
scores and distinct ids are returned in their *input* order by the
Phase-4 sort, in both presentation orders; hence the relative order of
tied candidates is not determined by any tie-break on candidate id. -/
theorem rankingSort_noIdTieBreak_counterexample :
    matchAlice.compatibilityScore = matchBob.compatibilityScore ∧
    matchAlice.targetUserId ≠ matchBob.targetUserId ∧
    MatchingService.sortPreferenceMatches "compatibility" "desc" [matchBob, matchAlice] =
      [matchBob, matchAlice] ∧
    MatchingService.sortPreferenceMatches "compatibility" "desc" [matchAlice, matchBob] =
      [matchAlice, matchBob] := by
  refine ⟨rfl, by simp [matchAlice, matchBob], ?_, ?_⟩ <;>
  · unfold MatchingService.sortPreferenceMatches
    apply List.mergeSort_of_sorted
    simp [List.pairwise_cons, MatchingService.matchComparator, matchAlice, matchBob]

/-- C7 (amended): the ranked list under `sort.by = 'compatibility'`,
direction `'desc'` is a permutation of the input sorted by descending
compatibility score, and the sort is stable: any pair already in
weakly-descending order in the input — in particular any pair of tied
candidates — keeps its relative (input) order.  There is no id
tie-break; reproducibility holds only as input-order stability. -/
theorem rankingSort_sortedDesc_stable (l : List MatchingService.RankedMatch) :
    (MatchingService.sortPreferenceMatches "compatibility" "desc" l).Perm l ∧
    (MatchingService.sortPreferenceMatches "compatibility" "desc" l).Pairwise
      (fun a b => b.compatibilityScore ≤ a.compatibilityScore) ∧
    ∀ a b : MatchingService.RankedMatch, [a, b].Sublist l →
      b.compatibilityScore ≤ a.compatibilityScore →
      [a, b].Sublist (MatchingService.sortPreferenceMatches "compatibility" "desc" l) := by
  have hle : ∀ a b : MatchingService.RankedMatch,
      decide (MatchingService.matchComparator "compatibility" "desc" a b ≤ 0) = true ↔
      b.compatibilityScore ≤ a.compatibilityScore := by
    intro a b
    simp [MatchingService.matchComparator, sub_nonpos]
  have htrans : ∀ a b c : MatchingService.RankedMatch,
      (fun x y => decide (MatchingService.matchComparator "compatibility" "desc" x y ≤ 0)) a b →
      (fun x y => decide (MatchingService.matchComparator "compatibility" "desc" x y ≤ 0)) b c →
      (fun x y => decide (MatchingService.matchComparator "compatibility" "desc" x y ≤ 0)) a c := by
    intro a b c hab hbc
    rw [hle] at hab hbc ⊢
    exact le_trans hbc hab
  have htotal : ∀ a b : MatchingService.RankedMatch,
      ((fun x y => decide (MatchingService.matchComparator "compatibility" "desc" x y ≤ 0)) a b ||
       (fun x y => decide (MatchingService.matchComparator "compatibility" "desc" x y ≤ 0)) b a) := by
    intro a b
    rcases le_total b.compatibilityScore a.compatibilityScore with h | h
    · simp [(hle a b).mpr h]
    · simp [(hle b a).mpr h]
  unfold MatchingService.sortPreferenceMatches
  refine ⟨List.mergeSort_perm l _, ?_, ?_⟩
  · exact (List.sorted_mergeSort htrans htotal l).imp (fun hab => (hle _ _).mp hab)
  · intro a b hsub hcomp
    exact List.pair_sublist_mergeSort htrans htotal ((hle _ _).mpr hcomp) hsub

/-- Witness for the amended C7 at a two-element tied list. -/
theorem rankingSort_sortedDesc_stable_witness :
    (MatchingService.sortPreferenceMatches "compatibility" "desc"
      [matchBob, matchAlice]).Perm [matchBob, matchAlice] ∧
    matchAlice.compatibilityScore ≤ matchBob.compatibilityScore ∧
    [matchBob, matchAlice].Sublist
      (MatchingService.sortPreferenceMatches "compatibility" "desc" [matchBob, matchAlice]) := by
  have h := rankingSort_sortedDesc_stable [matchBob, matchAlice]
  exact ⟨h.1, by norm_num [matchAlice, matchBob],
    h.2.2 matchBob matchAlice (List.Sublist.refl _) (by norm_num [matchAlice, matchBob])⟩

theorem bodyType_bounds (u c : UserProfile) :
    0 ≤ PreferenceFiltering.calculateBodyTypeCompatibility u c ∧
    PreferenceFiltering.calculateBodyTypeCompatibility u c ≤ 1 := by
  unfold PreferenceFiltering.calculateBodyTypeCompatibility
  try dsimp only
  repeat' split
  all_goals norm_num

theorem height_bounds (u c : UserProfile) :
    0 ≤ PreferenceFiltering.calculateHeightCompatibility u c ∧
    PreferenceFiltering.calculateHeightCompatibility u c ≤ 1 := by
  unfold PreferenceFiltering.calculateHeightCompatibility
  try dsimp only
  repeat' split
  all_goals norm_num

theorem ageCompat_bounds (u c : UserProfile) :
    0 ≤ PreferenceFiltering.calculateAgeCompatibility u c ∧
    PreferenceFiltering.calculateAgeCompatibility u c ≤ 1 := by
  unfold PreferenceFiltering.calculateAgeCompatibility
  try dsimp only
  repeat' split
  all_goals norm_num

theorem appearance_bounds (c : UserProfile) :
    0 ≤ PreferenceFiltering.calculateAppearanceScore c ∧
    PreferenceFiltering.calculateAppearanceScore c ≤ 1 := by
  unfold PreferenceFiltering.calculateAppearanceScore
  try dsimp only
  repeat' split
  all_goals norm_num

theorem smoking_bounds (u c : UserProfile) :
    0 ≤ PreferenceFiltering.calculateSmokingCompatibility u c ∧
    PreferenceFiltering.calculateSmokingCompatibility u c ≤ 1 := by
  unfold PreferenceFiltering.calculateSmokingCompatibility
  try dsimp only
  repeat' split
  all_goals norm_num

theorem drinking_bounds (u c : UserProfile) :
    0 ≤ PreferenceFiltering.calculateDrinkingCompatibility u c ∧
    PreferenceFiltering.calculateDrinkingCompatibility u c ≤ 1 := by
  unfold PreferenceFiltering.calculateDrinkingCompatibility
  try dsimp only
  repeat' split
  all_goals norm_num

theorem exercise_bounds (u c : UserProfile) :
    0 ≤ PreferenceFiltering.calculateExerciseCompatibility u c ∧
    PreferenceFiltering.calculateExerciseCompatibility u c ≤ 1 := by
  unfold PreferenceFiltering.calculateExerciseCompatibility
  try dsimp only
  repeat' split
  all_goals norm_num

theorem diet_bounds (u c : UserProfile) :
    0 ≤ PreferenceFiltering.calculateDietCompatibility u c ∧
    PreferenceFiltering.calculateDietCompatibility u c ≤ 1 := by
  unfold PreferenceFiltering.calculateDietCompatibility
  try dsimp only
  repeat' split
  all_goals norm_num

theorem socialHabits_bounds (u c : UserProfile) :
    0 ≤ PreferenceFiltering.calculateSocialHabitsCompatibility u c ∧
    PreferenceFiltering.calculateSocialHabitsCompatibility u c ≤ 1 := by
  unfold PreferenceFiltering.calculateSocialHabitsCompatibility
  norm_num

theorem education_bounds (u c : UserProfile) :
    0 ≤ PreferenceFiltering.calculateEducationCompatibility u c ∧
    PreferenceFiltering.calculateEducationCompatibility u c ≤ 1 := by
  unfold PreferenceFiltering.calculateEducationCompatibility
  try dsimp only
  repeat' split
  all_goals norm_num

theorem occupation_bounds (u c : UserProfile) :
    0 ≤ PreferenceFiltering.calculateOccupationCompatibility u c ∧
    PreferenceFiltering.calculateOccupationCompatibility u c ≤ 1 := by
  unfold PreferenceFiltering.calculateOccupationCompatibility
  norm_num

theorem interests_bounds (u c : UserProfile) :
    0 ≤ PreferenceFiltering.calculateInterestsCompatibility u c ∧
    PreferenceFiltering.calculateInterestsCompatibility u c ≤ 1 := by
  unfold PreferenceFiltering.calculateInterestsCompatibility
  try dsimp only
  split
  · norm_num
  · constructor
    · rw [le_min_iff]
      refine ⟨?_, by norm_num⟩
      positivity
    · rw [min_le_iff]
      right
      norm_num

theorem languages_bounds (u c : UserProfile) :
    0 ≤ PreferenceFiltering.calculateLanguageCompatibility u c ∧
    PreferenceFiltering.calculateLanguageCompatibility u c ≤ 1 := by
  unfold PreferenceFiltering.calculateLanguageCompatibility
  try dsimp only
  repeat' split
  all_goals norm_num

theorem relationshipType_bounds (u c : UserProfile) :
    0 ≤ PreferenceFiltering.calculateRelationshipTypeCompatibility u c ∧
    PreferenceFiltering.calculateRelationshipTypeCompatibility u c ≤ 1 := by
  unfold PreferenceFiltering.calculateRelationshipTypeCompatibility
  try dsimp only
  repeat' split
  all_goals norm_num

theorem orientation_bounds (u c : UserProfile) :
    0 ≤ PreferenceFiltering.calculateSexualOrientationCompatibility u c ∧
    PreferenceFiltering.calculateSexualOrientationCompatibility u c ≤ 1 := by
  unfold PreferenceFiltering.calculateSexualOrientationCompatibility
  try dsimp only
  repeat' split
  all_goals norm_num

theorem commitment_bounds (u c : UserProfile) :
    0 ≤ PreferenceFiltering.calculateCommitmentCompatibility u c ∧
    PreferenceFiltering.calculateCommitmentCompatibility u c ≤ 1 := by
  unfold PreferenceFiltering.calculateCommitmentCompatibility
  norm_num

theorem familyGoals_bounds (u c : UserProfile) :
    0 ≤ PreferenceFiltering.calculateFamilyGoalsCompatibility u c ∧
    PreferenceFiltering.calculateFamilyGoalsCompatibility u c ≤ 1 := by
  unfold PreferenceFiltering.calculateFamilyGoalsCompatibility
  norm_num

/-- C9: every category score returned by `calculateCategoryScores` is
the arithmetic mean of the sub-factor values in its own breakdown
(four factors for physical, five for lifestyle, social and
relationship), and every sub-factor value and every category score lies
in `[0,1]`. -/
theorem categoryScores_mean_and_bounds (u c : UserProfile) :
    ((PreferenceFiltering.calculateCategoryScores u c).physical.score =
        ((PreferenceFiltering.calculateCategoryScores u c).physical.breakdown.bodyType +
         (PreferenceFiltering.calculateCategoryScores u c).physical.breakdown.height +
         (PreferenceFiltering.calculateCategoryScores u c).physical.breakdown.age +
         (PreferenceFiltering.calculateCategoryScores u c).physical.breakdown.appearance) / 4 ∧
      (0 ≤ (PreferenceFiltering.calculateCategoryScores u c).physical.breakdown.bodyType ∧
        (PreferenceFiltering.calculateCategoryScores u c).physical.breakdown.bodyType ≤ 1) ∧
      (0 ≤ (PreferenceFiltering.calculateCategoryScores u c).physical.breakdown.height ∧
        (PreferenceFiltering.calculateCategoryScores u c).physical.breakdown.height ≤ 1) ∧
      (0 ≤ (PreferenceFiltering.calculateCategoryScores u c).physical.breakdown.age ∧
        (PreferenceFiltering.calculateCategoryScores u c).physical.breakdown.age ≤ 1) ∧
      (0 ≤ (PreferenceFiltering.calculateCategoryScores u c).physical.breakdown.appearance ∧
        (PreferenceFiltering.calculateCategoryScores u c).physical.breakdown.appearance ≤ 1) ∧
      (0 ≤ (PreferenceFiltering.calculateCategoryScores u c).physical.score ∧
        (PreferenceFiltering.calculateCategoryScores u c).physical.score ≤ 1)) ∧
    ((PreferenceFiltering.calculateCategoryScores u c).lifestyle.score =
        ((PreferenceFiltering.calculateCategoryScores u c).lifestyle.breakdown.smoking +
         (PreferenceFiltering.calculateCategoryScores u c).lifestyle.breakdown.drinking +
         (PreferenceFiltering.calculateCategoryScores u c).lifestyle.breakdown.exercise +
         (PreferenceFiltering.calculateCategoryScores u c).lifestyle.breakdown.diet +
         (PreferenceFiltering.calculateCategoryScores u c).lifestyle.breakdown.socialHabits) / 5 ∧
      (0 ≤ (PreferenceFiltering.calculateCategoryScores u c).lifestyle.breakdown.smoking ∧
        (PreferenceFiltering.calculateCategoryScores u c).lifestyle.breakdown.smoking ≤ 1) ∧
      (0 ≤ (PreferenceFiltering.calculateCategoryScores u c).lifestyle.breakdown.drinking ∧
        (PreferenceFiltering.calculateCategoryScores u c).lifestyle.breakdown.drinking ≤ 1) ∧
      (0 ≤ (PreferenceFiltering.calculateCategoryScores u c).lifestyle.breakdown.exercise ∧
        (PreferenceFiltering.calculateCategoryScores u c).lifestyle.breakdown.exercise ≤ 1) ∧
      (0 ≤ (PreferenceFiltering.calculateCategoryScores u c).lifestyle.breakdown.diet ∧
        (PreferenceFiltering.calculateCategoryScores u c).lifestyle.breakdown.diet ≤ 1) ∧
      (0 ≤ (PreferenceFiltering.calculateCategoryScores u c).lifestyle.breakdown.socialHabits ∧
        (PreferenceFiltering.calculateCategoryScores u c).lifestyle.breakdown.socialHabits ≤ 1) ∧
      (0 ≤ (PreferenceFiltering.calculateCategoryScores u c).lifestyle.score ∧
        (PreferenceFiltering.calculateCategoryScores u c).lifestyle.score ≤ 1)) ∧
    ((PreferenceFiltering.calculateCategoryScores u c).social.score =
        ((PreferenceFiltering.calculateCategoryScores u c).social.breakdown.education +
         (PreferenceFiltering.calculateCategoryScores u c).social.breakdown.occupation +
         (PreferenceFiltering.calculateCategoryScores u c).social.breakdown.interests +
         (PreferenceFiltering.calculateCategoryScores u c).social.breakdown.languages +
         (PreferenceFiltering.calculateCategoryScores u c).social.breakdown.personality) / 5 ∧
      (0 ≤ (PreferenceFiltering.calculateCategoryScores u c).social.breakdown.education ∧
        (PreferenceFiltering.calculateCategoryScores u c).social.breakdown.education ≤ 1) ∧
      (0 ≤ (PreferenceFiltering.calculateCategoryScores u c).social.breakdown.occupation ∧
        (PreferenceFiltering.calculateCategoryScores u c).social.breakdown.occupation ≤ 1) ∧
      (0 ≤ (PreferenceFiltering.calculateCategoryScores u c).social.breakdown.interests ∧
        (PreferenceFiltering.calculateCategoryScores u c).social.breakdown.interests ≤ 1) ∧
      (0 ≤ (PreferenceFiltering.calculateCategoryScores u c).social.breakdown.languages ∧
        (PreferenceFiltering.calculateCategoryScores u c).social.breakdown.languages ≤ 1) ∧
      (0 ≤ (PreferenceFiltering.calculateCategoryScores u c).social.breakdown.personality ∧
        (PreferenceFiltering.calculateCategoryScores u c).social.breakdown.personality ≤ 1) ∧
      (0 ≤ (PreferenceFiltering.calculateCategoryScores u c).social.score ∧
        (PreferenceFiltering.calculateCategoryScores u c).social.score ≤ 1)) ∧
    ((PreferenceFiltering.calculateCategoryScores u c).relationship.score =
        ((PreferenceFiltering.calculateCategoryScores u c).relationship.breakdown.relationshipType +
         (PreferenceFiltering.calculateCategoryScores u c).relationship.breakdown.sexualOrientation +
         (PreferenceFiltering.calculateCategoryScores u c).relationship.breakdown.commitmentLevel +
         (PreferenceFiltering.calculateCategoryScores u c).relationship.breakdown.familyGoals +
         (PreferenceFiltering.calculateCategoryScores u c).relationship.breakdown.communication) / 5 ∧
      (0 ≤ (PreferenceFiltering.calculateCategoryScores u c).relationship.breakdown.relationshipType ∧
        (PreferenceFiltering.calculateCategoryScores u c).relationship.breakdown.relationshipType ≤ 1) ∧
      (0 ≤ (PreferenceFiltering.calculateCategoryScores u c).relationship.breakdown.sexualOrientation ∧
        (PreferenceFiltering.calculateCategoryScores u c).relationship.breakdown.sexualOrientation ≤ 1) ∧
      (0 ≤ (PreferenceFiltering.calculateCategoryScores u c).relationship.breakdown.commitmentLevel ∧
        (PreferenceFiltering.calculateCategoryScores u c).relationship.breakdown.commitmentLevel ≤ 1) ∧
      (0 ≤ (PreferenceFiltering.calculateCategoryScores u c).relationship.breakdown.familyGoals ∧
        (PreferenceFiltering.calculateCategoryScores u c).relationship.breakdown.familyGoals ≤ 1) ∧
      (0 ≤ (PreferenceFiltering.calculateCategoryScores u c).relationship.breakdown.communication ∧
        (PreferenceFiltering.calculateCategoryScores u c).relationship.breakdown.communication ≤ 1) ∧
      (0 ≤ (PreferenceFiltering.calculateCategoryScores u c).relationship.score ∧
        (PreferenceFiltering.calculateCategoryScores u c).relationship.score ≤ 1)) := by
  obtain ⟨b0, b1⟩ := bodyType_bounds u c
  obtain ⟨hh0, hh1⟩ := height_bounds u c
  obtain ⟨a0, a1⟩ := ageCompat_bounds u c
  obtain ⟨ap0, ap1⟩ := appearance_bounds c
  obtain ⟨sm0, sm1⟩ := smoking_bounds u c
  obtain ⟨dr0, dr1⟩ := drinking_bounds u c
  obtain ⟨ex0, ex1⟩ := exercise_bounds u c
  obtain ⟨di0, di1⟩ := diet_bounds u c
  obtain ⟨sh0, sh1⟩ := socialHabits_bounds u c
  obtain ⟨ed0, ed1⟩ := education_bounds u c
  obtain ⟨oc0, oc1⟩ := occupation_bounds u c
  obtain ⟨it0, it1⟩ := interests_bounds u c
  obtain ⟨la0, la1⟩ := languages_bounds u c
  obtain ⟨rt0, rt1⟩ := relationshipType_bounds u c
  obtain ⟨so0, so1⟩ := orientation_bounds u c
  obtain ⟨cm0, cm1⟩ := commitment_bounds u c
  obtain ⟨fg0, fg1⟩ := familyGoals_bounds u c
  have hpe : (PreferenceFiltering.calculateCategoryScores u c).physical.score =
      (PreferenceFiltering.calculateBodyTypeCompatibility u c +
       PreferenceFiltering.calculateHeightCompatibility u c +
       PreferenceFiltering.calculateAgeCompatibility u c +
       PreferenceFiltering.calculateAppearanceScore c) / 4 := by
    norm_num [PreferenceFiltering.calculateCategoryScores,
      PreferenceFiltering.calculatePhysicalScore]
  have hli : (PreferenceFiltering.calculateCategoryScores u c).lifestyle.score =
      (PreferenceFiltering.calculateSmokingCompatibility u c +
       PreferenceFiltering.calculateDrinkingCompatibility u c +
       PreferenceFiltering.calculateExerciseCompatibility u c +
       PreferenceFiltering.calculateDietCompatibility u c +
       PreferenceFiltering.calculateSocialHabitsCompatibility u c) / 5 := by
    norm_num [PreferenceFiltering.calculateCategoryScores,
      PreferenceFiltering.calculateLifestyleScore]
  have hso : (PreferenceFiltering.calculateCategoryScores u c).social.score =
      (PreferenceFiltering.calculateEducationCompatibility u c +
       PreferenceFiltering.calculateOccupationCompatibility u c +
       PreferenceFiltering.calculateInterestsCompatibility u c +
       PreferenceFiltering.calculateLanguageCompatibility u c + 0.5) / 5 := by
    norm_num [PreferenceFiltering.calculateCategoryScores,
      PreferenceFiltering.calculateSocialScore]
  have hre : (PreferenceFiltering.calculateCategoryScores u c).relationship.score =
      (PreferenceFiltering.calculateRelationshipTypeCompatibility u c +
       PreferenceFiltering.calculateSexualOrientationCompatibility u c +
       PreferenceFiltering.calculateCommitmentCompatibility u c +
       PreferenceFiltering.calculateFamilyGoalsCompatibility u c + 0.5) / 5 := by
    norm_num [PreferenceFiltering.calculateCategoryScores,
      PreferenceFiltering.calculateRelationshipScore]
  refine ⟨⟨hpe, ⟨b0, b1⟩, ⟨hh0, hh1⟩, ⟨a0, a1⟩, ⟨ap0, ap1⟩, ?_, ?_⟩,
          ⟨hli, ⟨sm0, sm1⟩, ⟨dr0, dr1⟩, ⟨ex0, ex1⟩, ⟨di0, di1⟩, ⟨sh0, sh1⟩, ?_, ?_⟩,
          ⟨hso, ⟨ed0, ed1⟩, ⟨oc0, oc1⟩, ⟨it0, it1⟩, ⟨la0, la1⟩,
            ⟨by norm_num [PreferenceFiltering.calculateCategoryScores,
                PreferenceFiltering.calculateSocialScore],
             by norm_num [PreferenceFiltering.calculateCategoryScores,
                PreferenceFiltering.calculateSocialScore]⟩, ?_, ?_⟩,
          ⟨hre, ⟨rt0, rt1⟩, ⟨so0, so1⟩, ⟨cm0, cm1⟩, ⟨fg0, fg1⟩,
            ⟨by norm_num [PreferenceFiltering.calculateCategoryScores,
                PreferenceFiltering.calculateRelationshipScore],
             by norm_num [PreferenceFiltering.calculateCategoryScores,
                PreferenceFiltering.calculateRelationshipScore]⟩, ?_, ?_⟩⟩
  · rw [hpe]
    apply div_nonneg (by linarith) (by norm_num)
  · rw [hpe, div_le_one (by norm_num)]
    linarith
  · rw [hli]
    apply div_nonneg (by linarith) (by norm_num)
  · rw [hli, div_le_one (by norm_num)]
    linarith
  · rw [hso]
    apply div_nonneg (by linarith) (by norm_num)
  · rw [hso, div_le_one (by norm_num)]
    linarith
  · rw [hre]
    apply div_nonneg (by linarith) (by norm_num)
  · rw [hre, div_le_one (by norm_num)]
    linarith
